import Mathlib

/-
Verification of the PoseSolve solver core (src/crates/solver/src/lib.rs)
against its design specification.

The Rust source is a WASM stub: `solve` deserializes the request with
serde_json, reads only the `image` field, and returns a fixed response;
`reproject_points` ignores its argument and returns a constant string.
The embedding below mirrors that code. JSON numbers are modelled as exact
rationals: every finite f64 is a rational, and the only arithmetic the stub
performs on them (halving) is exact on f64, so the models agree on all
inputs of interest. The request is modelled at the JSON-structure level;
the serde_json lexer (text to JSON tree) sits below this boundary, and its
failures flow through the same `map_err` branch as structural mismatches.
-/

namespace PoseSolve

/-- JSON values as handed to serde's deserializer; numbers are exact
rationals (see the header comment). -/
inductive Json where
  | null : Json
  | bool (b : Bool) : Json
  | num (q : Rat) : Json
  | str (s : String) : Json
  | arr (elems : List Json) : Json
  | obj (fields : List (String × Json)) : Json

/-- Embedding of struct Image (lib.rs line 11): width and height as f64. -/
structure Image where
  width : Rat
  height : Rat
deriving DecidableEq

/-- Embedding of struct SolveRequest (lib.rs lines 4-8): only the image
field exists; the comment in the source says other fields are omitted in
the stub, and serde ignores unknown fields by default. -/
structure SolveRequest where
  image : Image
deriving DecidableEq

/-- Embedding of struct Pose (lib.rs line 14). -/
structure Pose where
  lat : Rat
  lon : Rat
  alt : Rat
  yawDeg : Rat
  pitchDeg : Rat
  rollDeg : Rat
deriving DecidableEq

/-- Embedding of struct Intrinsics (lib.rs line 17). -/
structure Intrinsics where
  focalPx : Rat
  cx : Rat
  cy : Rat
deriving DecidableEq

/-- Embedding of struct Covariance (lib.rs line 20). -/
structure Covariance where
  matrix : List Rat
  labels : List String
deriving DecidableEq

/-- Embedding of struct Diagnostics (lib.rs line 23). -/
structure Diagnostics where
  rmsePx : Rat
  inlierRatio : Rat
  residualsPx : List Rat
  inlierIds : List String
  warnings : List String
deriving DecidableEq

/-- Embedding of struct SolveResponse (lib.rs line 26). -/
structure SolveResponse where
  pose : Pose
  intrinsics : Intrinsics
  covariance : Covariance
  diagnostics : Diagnostics
deriving DecidableEq

/-- Serde extraction of an f64 value: any JSON number is accepted, every
other JSON value is an invalid-type error. -/
def getF64 : Json → Except String Rat
  | Json.num q => Except.ok q
  | _ => Except.error ("invalid type: expected f64")

/-- Serde-derive field loop for struct Image: width and height are required
f64 fields, a duplicate key is an error, unknown keys are skipped. -/
def imageFromFields : List (String × Json) → Option Rat → Option Rat → Except String Image
  | [], some w, some h => Except.ok { width := w, height := h }
  | [], none, _ => Except.error ("missing field width")
  | [], some _, none => Except.error ("missing field height")
  | (k, v) :: rest, accW, accH =>
    if k = "width" then
      match accW with
      | some _ => Except.error ("duplicate field width")
      | none =>
        match getF64 v with
        | Except.ok q => imageFromFields rest (some q) accH
        | Except.error e => Except.error e
    else if k = "height" then
      match accH with
      | some _ => Except.error ("duplicate field height")
      | none =>
        match getF64 v with
        | Except.ok q => imageFromFields rest accW (some q)
        | Except.error e => Except.error e
    else imageFromFields rest accW accH

/-- Serde deserialization of struct Image from a JSON value. -/
def imageFromJson : Json → Except String Image
  | Json.obj fields => imageFromFields fields none none
  | _ => Except.error ("invalid type: expected struct Image")

/-- Serde-derive field loop for struct SolveRequest: image is the one
required field, a duplicate key is an error, unknown keys are skipped. -/
def solveRequestFromFields : List (String × Json) → Option Image → Except String SolveRequest
  | [], some img => Except.ok { image := img }
  | [], none => Except.error ("missing field image")
  | (k, v) :: rest, acc =>
    if k = "image" then
      match acc with
      | some _ => Except.error ("duplicate field image")
      | none =>
        match imageFromJson v with
        | Except.ok img => solveRequestFromFields rest (some img)
        | Except.error e => Except.error e
    else solveRequestFromFields rest acc

/-- serde_json::from_str::<SolveRequest> at the JSON-structure level
(lib.rs line 30). -/
def solveRequestFromJson : Json → Except String SolveRequest
  | Json.obj fields => solveRequestFromFields fields none
  | _ => Except.error ("invalid type: expected struct SolveRequest")

/-- Embedding of pub fn solve (lib.rs lines 28-47). A parse failure is
mapped to an error prefixed with the source's format string; otherwise the
fixed stub response is built, with the principal point at half the parsed
image dimensions. The final serde_json::to_string step, which cannot fail
on this response type, is left at the structured level: the Ok payload is
the SolveResponse record that the Rust code serializes. -/
def solve (j : Json) : Except String SolveResponse :=
  match solveRequestFromJson j with
  | Except.error e => Except.error ("Invalid request JSON: " ++ e)
  | Except.ok req =>
    Except.ok
      { pose := { lat := 0, lon := 0, alt := 0, yawDeg := 0, pitchDeg := 0, rollDeg := 0 }
      , intrinsics := { focalPx := 1000, cx := req.image.width / 2, cy := req.image.height / 2 }
      , covariance := { matrix := [], labels := [] }
      , diagnostics :=
          { rmsePx := 0
          , inlierRatio := 0
          , residualsPx := []
          , inlierIds := []
          , warnings := ["Stub solver response from WASM"] } }

/-- Embedding of pub fn reproject_points (lib.rs lines 49-52): the argument
is never inspected and a constant Ok string is returned. -/
def reproject_points (_req_json : String) : Except String String :=
  Except.ok ("\x7b\"pixels\": [], \"warnings\": [\"Not implemented\"]\x7d")

/-- The constant string reproject_points returns. -/
def reprojectStubOutput : String :=
  "\x7b\"pixels\": [], \"warnings\": [\"Not implemented\"]\x7d"

/-- The fixed response the stub builds from the parsed image dimensions. -/
def stubResponse (w h : Rat) : SolveResponse :=
  { pose := { lat := 0, lon := 0, alt := 0, yawDeg := 0, pitchDeg := 0, rollDeg := 0 }
  , intrinsics := { focalPx := 1000, cx := w / 2, cy := h / 2 }
  , covariance := { matrix := [], labels := [] }
  , diagnostics :=
      { rmsePx := 0
      , inlierRatio := 0
      , residualsPx := []
      , inlierIds := []
      , warnings := ["Stub solver response from WASM"] } }

/-- The fixed parameter ordering the spec (section 3, Covariance) mandates
for covariance row and column labels. -/
def specParamLabels : List String :=
  ["x", "y", "z", "yaw", "pitch", "roll", "focal", "cx", "cy"]

/-- A 1920 by 1080 image as JSON. -/
def imageJson : Json :=
  Json.obj [("width", Json.num 1920), ("height", Json.num 1080)]

/-- A minimal well-formed request: the image and nothing else. -/
def basicReq : Json :=
  Json.obj [("image", imageJson)]

/-- One correspondence entry: an observation id, its pixel, and the matched
world point. The stub parser never reads these entries. -/
def corrEntry (id : String) (px py wx wy wz : Rat) : Json :=
  Json.obj
    [ ("id", Json.str id)
    , ("pixel", Json.arr [Json.num px, Json.num py])
    , ("world", Json.arr [Json.num wx, Json.num wy, Json.num wz]) ]

/-- Number of correspondence entries carried by a request JSON value; used
to compare against the lengths the diagnostics report. -/
def countCorr : List (String × Json) → Nat
  | [] => 0
  | (k, Json.arr xs) :: rest => if k = "correspondences" then xs.length else countCorr rest
  | _ :: rest => countCorr rest

/-- Number of correspondence entries of a request. -/
def correspondenceCount : Json → Nat
  | Json.obj fields => countCorr fields
  | _ => 0

/-- The spec section 8 scenario request: image 1920 by 1080 and six
noiseless correspondences in a well-conditioned configuration around the
known pose (lat 37, lon -122, alt 100, yaw = pitch = roll = 0, focal 1000). -/
def scenarioReq : Json :=
  Json.obj
    [ ("image", imageJson)
    , ("correspondences", Json.arr
        [ corrEntry "p1" 960 540 0 0 0
        , corrEntry "p2" 760 540 (-20) 0 0
        , corrEntry "p3" 1160 540 20 0 0
        , corrEntry "p4" 960 340 0 20 0
        , corrEntry "p5" 960 740 0 (-20) 0
        , corrEntry "p6" 1060 640 10 (-10) 5 ]) ]

/-- A request whose correspondence list is empty, below every minimal-method
count the spec contemplates (3 to 6). -/
def noCorrReq : Json :=
  Json.obj [("image", imageJson), ("correspondences", Json.arr [])]

/-- A valid request with a single observation, used for the round-trip
check between solve and reproject_points. -/
def roundTripReq : Json :=
  Json.obj
    [ ("image", imageJson)
    , ("correspondences", Json.arr [corrEntry "q1" 100 200 5 5 50]) ]

/-- The reprojection request built from the pose and intrinsics that solve
returns for roundTripReq, together with its single world point. -/
def roundTripReprojectStr : String :=
  "\x7b\"pose\": \x7b\"lat\": 0.0, \"lon\": 0.0, \"alt\": 0.0, \"yawDeg\": 0.0, \"pitchDeg\": 0.0, \"rollDeg\": 0.0\x7d, \"intrinsics\": \x7b\"focalPx\": 1000.0, \"cx\": 960.0, \"cy\": 540.0\x7d, \"points\": [[5.0, 5.0, 50.0]]\x7d"

/-- A reprojection request carrying exactly one 3D point. -/
def onePointReprojectStr : String :=
  "\x7b\"pose\": \x7b\"lat\": 37.0, \"lon\": -122.0, \"alt\": 100.0, \"yawDeg\": 0.0, \"pitchDeg\": 0.0, \"rollDeg\": 0.0\x7d, \"intrinsics\": \x7b\"focalPx\": 1000.0, \"cx\": 960.0, \"cy\": 540.0\x7d, \"points\": [[0.0, 0.0, 0.0]]\x7d"

/-- The pose the spec scenario requires solve to return. -/
def specScenarioPose : Pose :=
  { lat := 37, lon := -122, alt := 100, yawDeg := 0, pitchDeg := 0, rollDeg := 0 }

/-- The diagnostics the spec scenario requires: rmse below 1e-6 (exactly 0
for noiseless data), inlier ratio 1, all six ids inliers, no warnings. -/
def specScenarioDiagnostics : Diagnostics :=
  { rmsePx := 0
  , inlierRatio := 1
  , residualsPx := [0, 0, 0, 0, 0, 0]
  , inlierIds := ["p1", "p2", "p3", "p4", "p5", "p6"]
  , warnings := [] }

/-- C1: the spec says solve on the noiseless six-point scenario returns the
true pose (lat 37, lon -122, alt 100, zero angles) with inlier ratio 1 and
no warnings; the code instead returns the fixed stub response, whose pose
and diagnostics differ from what the scenario requires and whose warning
list is not empty. -/
theorem C1_scenario_returns_stub_not_true_pose :
    solve scenarioReq = Except.ok (stubResponse 1920 1080) ∧
    (stubResponse 1920 1080).pose ≠ specScenarioPose ∧
    (stubResponse 1920 1080).diagnostics ≠ specScenarioDiagnostics ∧
    (stubResponse 1920 1080).diagnostics.warnings ≠ [] := by
  refine ⟨rfl, ?_, ?_, ?_⟩ <;> decide

/-- C2: a request whose correspondence list is empty is below any
minimal-method count, so the spec requires an input-validation failure; the
code nevertheless returns Ok with the stub pose. -/
theorem C2_below_minimal_count_still_ok :
    solve noCorrReq = Except.ok (stubResponse 1920 1080) := rfl

/-- C3: the scenario request carries six observations, yet the response's
diagnostics hold an empty residualsPx, so its length does not match the
observation count. -/
theorem C3_residuals_empty_despite_six_observations :
    solve scenarioReq = Except.ok (stubResponse 1920 1080) ∧
    correspondenceCount scenarioReq = 6 ∧
    ((stubResponse 1920 1080).diagnostics.residualsPx).length = 0 := by
  exact ⟨rfl, rfl, rfl⟩

/-- C4: on a successful solve the covariance is empty and a warning is
present while pose and intrinsics are reported, but the covariance labels
are empty rather than the fixed nine-entry parameter ordering the spec
mandates. -/
theorem C4_labels_do_not_match_fixed_ordering :
    solve basicReq = Except.ok (stubResponse 1920 1080) ∧
    (stubResponse 1920 1080).covariance.labels = [] ∧
    (stubResponse 1920 1080).covariance.labels ≠ specParamLabels ∧
    (stubResponse 1920 1080).diagnostics.warnings ≠ [] := by
  refine ⟨rfl, rfl, ?_, ?_⟩ <;> decide

/-- C5: a reprojection request carrying one 3D point should yield one
projected pixel; the code returns the constant response whose pixel list is
empty, independent of the request. -/
theorem C5_one_point_yields_constant_empty_pixels :
    reproject_points onePointReprojectStr = Except.ok reprojectStubOutput ∧
    reprojectStubOutput = "\x7b\"pixels\": [], \"warnings\": [\"Not implemented\"]\x7d" :=
  ⟨rfl, rfl⟩

/-- C6: solve reports rmse 0 for the one-observation request, so the
round-trip property demands that reprojecting the returned pose and
intrinsics through the request's world point reproduces the observed pixel
exactly; but reproject_points returns the constant empty pixel list, which
cannot reproduce the single observation. -/
theorem C6_round_trip_cannot_reproduce_observation :
    solve roundTripReq = Except.ok (stubResponse 1920 1080) ∧
    (stubResponse 1920 1080).diagnostics.rmsePx = 0 ∧
    correspondenceCount roundTripReq = 1 ∧
    reproject_points roundTripReprojectStr = Except.ok reprojectStubOutput := by
  exact ⟨rfl, rfl, rfl, rfl⟩

/-- C7: whenever request deserialization fails, solve aborts with the
descriptive error built from the source's format string around the parse
error, and returns no response payload. -/
theorem C7_parse_failure_aborts_with_descriptive_error (j : Json) (e : String)
    (h : solveRequestFromJson j = Except.error e) :
    solve j = Except.error ("Invalid request JSON: " ++ e) := by
  unfold solve
  rw [h]

/-- Witness for C7 at the concrete malformed request Json.null. -/
theorem C7_witness :
    solveRequestFromJson Json.null = Except.error ("invalid type: expected struct SolveRequest") ∧
    solve Json.null =
      Except.error ("Invalid request JSON: " ++ "invalid type: expected struct SolveRequest") :=
  ⟨rfl, C7_parse_failure_aborts_with_descriptive_error Json.null
    ("invalid type: expected struct SolveRequest") rfl⟩

/-- C8: both operations are pure functions of the request in this
embedding, as in the source, which reads no state outside its argument; two
invocations on the same input are therefore equal. -/
theorem C8_pure_deterministic (j : Json) (s : String) :
    solve j = solve j ∧ reproject_points s = reproject_points s :=
  ⟨rfl, rfl⟩

/-- C9: every request that deserializes to a SolveRequest gets the fixed
stub response, which depends only on the parsed image dimensions: zero
pose, focal 1000 with principal point at half the image size, empty
covariance and labels, zero rmse and inlier ratio, empty residuals and
inlier ids, and the single stub warning. -/
theorem C9_parsed_request_yields_fixed_stub_response (j : Json) (req : SolveRequest)
    (h : solveRequestFromJson j = Except.ok req) :
    solve j = Except.ok (stubResponse req.image.width req.image.height) := by
  unfold solve
  rw [h]
  rfl

/-- Witness for C9 at the concrete request carrying a 1920 by 1080 image. -/
theorem C9_witness :
    solveRequestFromJson basicReq = Except.ok { image := { width := 1920, height := 1080 } } ∧
    solve basicReq = Except.ok (stubResponse 1920 1080) :=
  ⟨rfl, C9_parsed_request_yields_fixed_stub_response basicReq
    { image := { width := 1920, height := 1080 } } rfl⟩

/-- C10: reproject_points never inspects its argument: for every input
string it returns Ok with exactly the constant not-implemented response. -/
theorem C10_reproject_constant_for_all_inputs (s : String) :
    reproject_points s =
      Except.ok ("\x7b\"pixels\": [], \"warnings\": [\"Not implemented\"]\x7d") :=
  rfl

end PoseSolve
